import Mathlib

/-!
Verification of the wwebjs-api repository's specification against its source.

The development shallowly embeds the relevant JavaScript source files:
  * src/src/config.js   : environment-variable parsing into configuration values
  * src/src/utils.js    : triggerWebhook, sendErrorResponse, waitForNestedObject,
                          isEventEnabled, decodeBase64
  * src/server.js       : startup sequence (webhook-URL check, listen, restoreSessions)
  * the channel controller : seventeen request handlers sharing a lookup guard

JavaScript values that matter for control flow (truthiness, undefined) are
modelled explicitly; asynchronous HTTP calls are modelled by separating the
synchronous issue phase from the completion continuation.
-/

namespace WwebjsApi

/-! ## JavaScript values (only the features the source exercises) -/

/-- A JavaScript value, as far as truthiness and property lookup are concerned. -/
inductive JsValue where
  | jsUndefined
  | jsNull
  | jsBool (b : Bool)
  | jsNum (n : Int)
  | jsStr (s : String)
  | jsObj (fields : List (String × JsValue))
deriving Repr

/-- JavaScript truthiness of a value. -/
def truthy : JsValue → Bool
  | .jsUndefined => false
  | .jsNull => false
  | .jsBool b => b
  | .jsNum n => n != 0
  | .jsStr s => !s.isEmpty
  | .jsObj _ => true

/-- Truthiness of an environment variable: `undefined` and the empty string are
falsy, every other string is truthy. -/
def jsTruthyStr : Option String → Bool
  | none => false
  | some s => !s.isEmpty

/-- JavaScript `String.prototype.toLowerCase`, modelled per character. -/
def toLowerStr (s : String) : String :=
  String.mk (s.data.map Char.toLower)

/-! ## Configuration (src/src/config.js)

Each configuration constant is a function of the process environment, mirroring
the corresponding line of config.js. -/

/-- The process environment variables consulted by config.js (each possibly unset). -/
structure Env where
  PORT : Option String
  API_KEY : Option String
  BASE_WEBHOOK_URL : Option String
  DISABLED_CALLBACKS : Option String
  ENABLE_WEBHOOK : Option String
  AUTO_START_SESSIONS : Option String
deriving Repr, DecidableEq

/-- config.js: `const globalApiKey = process.env.API_KEY` (may be undefined). -/
def globalApiKey (env : Env) : Option String := env.API_KEY

/-- config.js: `const baseWebhookURL = process.env.BASE_WEBHOOK_URL`. -/
def baseWebhookURL (env : Env) : Option String := env.BASE_WEBHOOK_URL

/-- config.js: `const disabledCallbacks = process.env.DISABLED_CALLBACKS ?
process.env.DISABLED_CALLBACKS.split('|') : []`. -/
def disabledCallbacks (env : Env) : List String :=
  if jsTruthyStr env.DISABLED_CALLBACKS then (env.DISABLED_CALLBACKS.getD "").splitOn "|"
  else []

/-- config.js: `const enableWebHook = process.env.ENABLE_WEBHOOK ?
(process.env.ENABLE_WEBHOOK).toLowerCase() === 'true' : true`. -/
def enableWebHook (env : Env) : Bool :=
  if jsTruthyStr env.ENABLE_WEBHOOK then toLowerStr (env.ENABLE_WEBHOOK.getD "") == "true"
  else true

/-- config.js: `const autoStartSessions = process.env.AUTO_START_SESSIONS ?
(process.env.AUTO_START_SESSIONS).toLowerCase() === 'true' : true`. -/
def autoStartSessions (env : Env) : Bool :=
  if jsTruthyStr env.AUTO_START_SESSIONS then toLowerStr (env.AUTO_START_SESSIONS.getD "") == "true"
  else true

/-- The service port as a JavaScript value: a string when PORT is set, the
number 3000 otherwise (`process.env.PORT || 3000`). -/
inductive JsPort where
  | str (s : String)
  | num (n : Nat)
deriving Repr, DecidableEq

/-- config.js: `const servicePort = process.env.PORT || 3000`. -/
def servicePort (env : Env) : JsPort :=
  match env.PORT with
  | some s => if s.isEmpty then .num 3000 else .str s
  | none => .num 3000

/-! ## Event filter (src/src/utils.js, isEventEnabled) -/

/-- utils.js: `const isEventEnabled = (event) => !disabledCallbacks.includes(event)`. -/
def isEventEnabled (env : Env) (event : String) : Bool :=
  !((disabledCallbacks env).contains event)

/-! ## Webhook dispatch (src/src/utils.js, triggerWebhook)

The axios call is modelled in two phases.  The issue phase (`triggerWebhook`)
is the synchronous body of the function: it produces the outbound HTTP request
(or nothing when webhooks are disabled) and returns; it takes no response as
input.  The completion continuation (`triggerWebhookSettle`) models the
`.then`/`.catch` handlers attached to the axios promise, which run later, once
the HTTP outcome is known. -/

/-- The JSON body of a webhook notification: the object `{ dataType, data, sessionId }`. -/
structure WebhookBody where
  dataType : String
  data : JsValue
  sessionId : String
deriving Repr

/-- An outbound HTTP request.  Header values are optional strings because
JavaScript may supply `undefined` (an unset API key). -/
structure HttpRequest where
  method : String
  url : String
  body : WebhookBody
  headers : List (String × Option String)
deriving Repr

/-- utils.js triggerWebhook, issue phase: when webhooks are enabled, POST the
body `{ dataType, data, sessionId }` to the webhook URL with the `x-api-key`
header; otherwise do nothing.  The function returns after issuing the request,
without consuming any HTTP outcome. -/
def triggerWebhook (env : Env) (webhookURL sessionId dataType : String) (data : JsValue) :
    List HttpRequest :=
  if enableWebHook env then
    [{ method := "POST"
       url := webhookURL
       body := { dataType := dataType, data := data, sessionId := sessionId }
       headers := [("x-api-key", globalApiKey env)] }]
  else []

/-- A log line produced by the logger. -/
inductive LogEntry where
  | debug (msg : String)
  | error (msg : String)
deriving Repr, DecidableEq

/-- The outcome of an axios POST: axios fulfills its promise exactly on a 2xx
status and rejects on a network error or a non-2xx status. -/
inductive HttpOutcome where
  | ok (status : Nat)
  | netError (msg : String)
  | httpError (status : Nat)
deriving Repr, DecidableEq

/-- The observable effects of running the `.then`/`.catch` continuation of the
webhook POST: log lines, plus the (absent) retry, persistence and exception
effects. -/
structure SettleResult where
  logs : List LogEntry
  retries : List HttpRequest
  persisted : List HttpRequest
  thrown : Option String
deriving Repr

/-- utils.js triggerWebhook, completion continuation: `.then` logs a debug line,
`.catch` logs an error line; in neither case is anything retried, persisted or
rethrown (the catch handler returns normally, so the chain never rejects). -/
def triggerWebhookSettle (req : HttpRequest) (outcome : HttpOutcome) : SettleResult :=
  match outcome with
  | .ok _ =>
    { logs := [.debug ("Webhook message sent to " ++ req.url)]
      retries := [], persisted := [], thrown := none }
  | .netError _ =>
    { logs := [.error ("Failed to send webhook message to " ++ req.url)]
      retries := [], persisted := [], thrown := none }
  | .httpError _ =>
    { logs := [.error ("Failed to send webhook message to " ++ req.url)]
      retries := [], persisted := [], thrown := none }

/-! ## Claim theorems: C1, C2, C4 -/

/-- Claim C1: every webhook notification triggerWebhook issues is a single HTTP
POST to the configured webhook URL whose JSON body is exactly the object
`{ dataType, data, sessionId }` for the delivered event, carrying the shared
API key under the `x-api-key` header. -/
theorem triggerWebhook_single_post (env : Env) (url sid dt : String) (data : JsValue)
    (r : HttpRequest) (hr : r ∈ triggerWebhook env url sid dt data) :
    (triggerWebhook env url sid dt data).length ≤ 1 ∧
    r.method = "POST" ∧ r.url = url ∧
    r.body = { dataType := dt, data := data, sessionId := sid } ∧
    r.headers = [("x-api-key", globalApiKey env)] := by
  unfold triggerWebhook at hr ⊢
  by_cases h : enableWebHook env
  · simp [h] at hr ⊢
    simp [hr]
  · simp [h] at hr

/-- Witness for C1: a concrete dispatch with webhooks at their default
(enabled) configuration issues exactly the described POST. -/
theorem triggerWebhook_single_post_witness :
    (let env : Env := ⟨none, some "key123", some "http://h/hook", none, none, none⟩
     let r : HttpRequest :=
       { method := "POST", url := "http://h/hook"
         body := { dataType := "message", data := .jsStr "hi", sessionId := "s1" }
         headers := [("x-api-key", some "key123")] }
     (triggerWebhook env "http://h/hook" "s1" "message" (.jsStr "hi")).length ≤ 1 ∧
        r.method = "POST" ∧ r.url = "http://h/hook" ∧
        r.body = { dataType := "message", data := .jsStr "hi", sessionId := "s1" } ∧
        r.headers = [("x-api-key", globalApiKey env)]) :=
  triggerWebhook_single_post _ _ _ _ _ _
    (by simp [triggerWebhook, enableWebHook, jsTruthyStr, globalApiKey])

/-- Claim C2: for every event whose webhook delivery fails (network error or
non-2xx response), the failure is logged as an error and the event is dropped:
no retry, nothing persisted, and no exception or rejected promise surfaces to
the caller. -/
theorem webhook_failure_logged_and_dropped (req : HttpRequest) (outcome : HttpOutcome)
    (h : ∀ s, outcome ≠ .ok s) :
    (triggerWebhookSettle req outcome).logs =
      [.error ("Failed to send webhook message to " ++ req.url)] ∧
    (triggerWebhookSettle req outcome).retries = [] ∧
    (triggerWebhookSettle req outcome).persisted = [] ∧
    (triggerWebhookSettle req outcome).thrown = none := by
  cases outcome with
  | ok s => exact absurd rfl (h s)
  | netError m => simp [triggerWebhookSettle]
  | httpError c => simp [triggerWebhookSettle]

/-- Witness for C2: a concrete failed delivery (connection refused) is logged
and dropped. -/
theorem webhook_failure_logged_and_dropped_witness :
    (let req : HttpRequest :=
       { method := "POST", url := "http://h/hook"
         body := { dataType := "message", data := .jsStr "hi", sessionId := "s1" }
         headers := [("x-api-key", none)] }
     (triggerWebhookSettle req (.netError "ECONNREFUSED")).logs =
        [.error ("Failed to send webhook message to " ++ req.url)] ∧
     (triggerWebhookSettle req (.netError "ECONNREFUSED")).retries = [] ∧
     (triggerWebhookSettle req (.netError "ECONNREFUSED")).persisted = [] ∧
     (triggerWebhookSettle req (.netError "ECONNREFUSED")).thrown = none) :=
  webhook_failure_logged_and_dropped _ _ (fun _ h => HttpOutcome.noConfusion h)

/-- Claim C4: the per-event-type filter is pure set membership over the
configured suppressed event types; with nothing configured the suppressed set
is empty and every event type is enabled. -/
theorem isEventEnabled_iff_not_disabled (env : Env) (event : String) :
    (isEventEnabled env event = true ↔ event ∉ disabledCallbacks env) ∧
    (jsTruthyStr env.DISABLED_CALLBACKS = true →
      disabledCallbacks env = (env.DISABLED_CALLBACKS.getD "").splitOn "|") ∧
    (jsTruthyStr env.DISABLED_CALLBACKS = false →
      disabledCallbacks env = [] ∧ isEventEnabled env event = true) := by
  refine ⟨?_, ?_, ?_⟩
  · simp [isEventEnabled, List.contains, List.elem_iff]
  · intro h
    simp [disabledCallbacks, h]
  · intro h
    simp [disabledCallbacks, isEventEnabled, h]

/-- Witness for C4: with `DISABLED_CALLBACKS=message_ack|message_reaction`,
the filter is membership in that two-element set, and with it unset every
event is enabled. -/
theorem isEventEnabled_iff_not_disabled_witness :
    (let env : Env := ⟨none, none, none, some "message_ack|message_reaction", none, none⟩
     (isEventEnabled env "message" = true ↔ "message" ∉ disabledCallbacks env) ∧
     (jsTruthyStr env.DISABLED_CALLBACKS = true →
       disabledCallbacks env = (env.DISABLED_CALLBACKS.getD "").splitOn "|") ∧
     (jsTruthyStr env.DISABLED_CALLBACKS = false →
       disabledCallbacks env = [] ∧ isEventEnabled env "message" = true)) :=
  isEventEnabled_iff_not_disabled _ _

/-! ## Fire-and-forget dispatch (src/src/utils.js, triggerWebhook)

`triggerWebhook` does not await the axios promise: the request joins the set
of pending HTTP calls and control returns at once.  The dispatcher is modelled
as a transition system: a `dispatch` step processes the next event (issuing
its webhook request) and a `complete` step runs the continuation of some
pending request once its HTTP outcome arrives.  The two are independent. -/

/-- An event to be delivered, as handed to triggerWebhook by the session's
event forwarding. -/
structure WebhookEvent where
  webhookURL : String
  sessionId : String
  dataType : String
  data : JsValue

/-- The requests triggerWebhook issues for one event. -/
def eventRequests (env : Env) (e : WebhookEvent) : List HttpRequest :=
  triggerWebhook env e.webhookURL e.sessionId e.dataType e.data

/-- Dispatcher state: events not yet dispatched, HTTP calls in flight,
requests issued so far, log lines produced so far. -/
structure DispatcherState where
  queue : List WebhookEvent
  pending : List HttpRequest
  issued : List HttpRequest
  logs : List LogEntry

/-- One step of the dispatcher.  `dispatch` runs triggerWebhook on the next
queued event: its request becomes pending and control returns immediately.
`complete` runs the `.then`/`.catch` continuation of one in-flight request
whose HTTP outcome has arrived. -/
inductive DispatcherStep (env : Env) : DispatcherState → DispatcherState → Prop where
  | dispatch (s : DispatcherState) (e : WebhookEvent) (rest : List WebhookEvent)
      (hq : s.queue = e :: rest) :
      DispatcherStep env s
        { queue := rest
          pending := s.pending ++ eventRequests env e
          issued := s.issued ++ eventRequests env e
          logs := s.logs }
  | complete (s : DispatcherState) (pre post : List HttpRequest) (r : HttpRequest)
      (o : HttpOutcome) (hp : s.pending = pre ++ r :: post) :
      DispatcherStep env s
        { queue := s.queue
          pending := pre ++ post
          issued := s.issued
          logs := s.logs ++ (triggerWebhookSettle r o).logs }

/-- Claim C3: webhook dispatch is fire-and-forget.  In every dispatcher state
with an event waiting — no matter which HTTP calls are still hanging in
`pending`, and without any HTTP outcome being available — the next event can
be dispatched at once: its request is issued and the queue advances, while
the hanging calls are left untouched.  Production of subsequent events never
waits on completion of an earlier webhook call. -/
theorem dispatch_never_blocks (env : Env) (s : DispatcherState) (e : WebhookEvent)
    (rest : List WebhookEvent) (hq : s.queue = e :: rest) :
    ∃ s', DispatcherStep env s s' ∧
      s'.queue = rest ∧
      s'.issued = s.issued ++ eventRequests env e ∧
      s'.pending = s.pending ++ eventRequests env e ∧
      s'.logs = s.logs :=
  ⟨_, .dispatch s e rest hq, rfl, rfl, rfl, rfl⟩

/-- Witness for C3: with one event queued behind a still-hanging webhook call,
the dispatcher can process the event immediately. -/
theorem dispatch_never_blocks_witness :
    (let env : Env := ⟨none, none, some "http://h/hook", none, none, none⟩
     let hanging : HttpRequest :=
       { method := "POST", url := "http://h/hook"
         body := { dataType := "message", data := .jsStr "old", sessionId := "s1" }
         headers := [("x-api-key", none)] }
     let e : WebhookEvent := ⟨"http://h/hook", "s1", "message", .jsStr "new"⟩
     let s : DispatcherState := ⟨[e], [hanging], [hanging], []⟩
     ∃ s', DispatcherStep env s s' ∧
       s'.queue = [] ∧
       s'.issued = s.issued ++ eventRequests env e ∧
       s'.pending = s.pending ++ eventRequests env e ∧
       s'.logs = s.logs) :=
  dispatch_never_blocks _ _ _ _ rfl

/-! ## Startup sequence (src/server.js)

server.js first checks the webhook configuration and may terminate the
process; otherwise it starts listening, and the listen callback — which runs
once — invokes restoreSessions exactly when autoStartSessions is true. -/

/-- An observable action of the startup sequence, in order of occurrence. -/
inductive StartupAction where
  | logError (msg : String)
  | exitProcess (code : Nat)
  | listen (port : JsPort)
  | logInfo (msg : String)
  | restoreSessions
deriving Repr, DecidableEq

/-- server.js startup: `if (!baseWebhookURL && enableWebHook)` log an error and
terminate with code 1; otherwise listen on the service port, whose callback
logs and, when autoStartSessions holds, invokes restoreSessions. -/
def serverStartup (env : Env) : List StartupAction :=
  if !(jsTruthyStr (baseWebhookURL env)) && enableWebHook env then
    [.logError "BASE_WEBHOOK_URL environment variable is not set. Exiting...", .exitProcess 1]
  else
    [.listen (servicePort env), .logInfo "Server running"] ++
      (if autoStartSessions env then [.logInfo "Starting all sessions", .restoreSessions]
       else [])

/-- Number of restoreSessions invocations in a startup trace. -/
def countRestore : List StartupAction → Nat
  | [] => 0
  | .restoreSessions :: rest => countRestore rest + 1
  | _ :: rest => countRestore rest

/-- Counterexample environment for C5: webhooks enabled by default but no base
webhook URL configured, with session auto-start requested. -/
def envExitC5 : Env := ⟨none, none, none, none, none, some "true"⟩

/-- Counterexample for C5 as stated: with `envExitC5` the recovery flag
(autoStartSessions) is true, yet the startup check terminates the process
before the server listens, so restoreSessions is never invoked — refuting
"restoreSessions is invoked a single time when the configured recovery flag
is true". -/
theorem restoreSessions_skipped_despite_flag :
    autoStartSessions envExitC5 = true ∧
    countRestore (serverStartup envExitC5) = 0 ∧
    serverStartup envExitC5 =
      [.logError "BASE_WEBHOOK_URL environment variable is not set. Exiting...",
       .exitProcess 1] := by
  refine ⟨by decide, by decide, by decide⟩

/-- Claim C5 (amended): restoreSessions is never invoked when autoStartSessions
is false; and whenever the startup sequence reaches the listen step (the
webhook-configuration check did not terminate the process), restoreSessions is
invoked exactly once if autoStartSessions is true and never otherwise. -/
theorem restoreSessions_once_iff_flag (env : Env) :
    (autoStartSessions env = false → countRestore (serverStartup env) = 0) ∧
    (StartupAction.listen (servicePort env) ∈ serverStartup env →
      countRestore (serverStartup env) = if autoStartSessions env then 1 else 0) := by
  by_cases hc : (!(jsTruthyStr (baseWebhookURL env)) && enableWebHook env) = true
  · constructor
    · intro _
      simp [serverStartup, hc, countRestore]
    · intro hl
      exfalso
      revert hl
      simp [serverStartup, hc]
  · rw [Bool.not_eq_true] at hc
    by_cases ha : autoStartSessions env = true
    · constructor
      · intro hfalse
        rw [ha] at hfalse
        cases hfalse
      · intro _
        simp [serverStartup, hc, ha, countRestore]
    · rw [Bool.not_eq_true] at ha
      constructor
      · intro _
        simp [serverStartup, hc, ha, countRestore]
      · intro _
        simp [serverStartup, hc, ha, countRestore]

/-- Witness for C5: with a webhook URL configured and auto-start left at its
default (true), the server listens and restoreSessions runs exactly once. -/
theorem restoreSessions_once_iff_flag_witness :
    (let env : Env := ⟨some "8080", none, some "http://h/hook", none, none, none⟩
     (autoStartSessions env = false → countRestore (serverStartup env) = 0) ∧
     (StartupAction.listen (servicePort env) ∈ serverStartup env →
       countRestore (serverStartup env) = if autoStartSessions env then 1 else 0)) :=
  restoreSessions_once_iff_flag _

/-- Claim C10: at startup, if webhooks are enabled but no base webhook URL is
configured, the process logs an error and terminates with code 1 without ever
listening; in every other configuration the first startup action is listening
on the configured port and the process does not terminate. -/
theorem startup_exits_iff_webhook_misconfigured (env : Env) :
    (jsTruthyStr (baseWebhookURL env) = false ∧ enableWebHook env = true →
      serverStartup env =
        [.logError "BASE_WEBHOOK_URL environment variable is not set. Exiting...",
         .exitProcess 1] ∧
      ∀ p, StartupAction.listen p ∉ serverStartup env) ∧
    (¬(jsTruthyStr (baseWebhookURL env) = false ∧ enableWebHook env = true) →
      (serverStartup env).head? = some (.listen (servicePort env)) ∧
      ∀ c, StartupAction.exitProcess c ∉ serverStartup env) := by
  constructor
  · rintro ⟨h1, h2⟩
    have hc : (!(jsTruthyStr (baseWebhookURL env)) && enableWebHook env) = true := by
      simp [h1, h2]
    constructor
    · simp [serverStartup, hc]
    · intro p
      simp [serverStartup, hc]
  · intro h
    have hc : (!(jsTruthyStr (baseWebhookURL env)) && enableWebHook env) = false := by
      by_cases h1 : jsTruthyStr (baseWebhookURL env) = true
      · simp [h1]
      · have h1f : jsTruthyStr (baseWebhookURL env) = false := by
          simpa using h1
        have h2 : enableWebHook env = false := by
          rcases Bool.eq_false_or_eq_true (enableWebHook env) with h2 | h2
          · exact absurd ⟨h1f, h2⟩ h
          · exact h2
        simp [h2]
    constructor
    · simp [serverStartup, hc]
    · intro c
      by_cases ha : autoStartSessions env
      · simp [serverStartup, hc, ha]
      · simp [serverStartup, hc, ha]

/-- Witness for C10, both branches at concrete environments: an enabled-webhook
configuration without a URL terminates with code 1; a configuration with a URL
starts listening on the configured port. -/
theorem startup_exits_iff_webhook_misconfigured_witness :
    (let envBad : Env := ⟨none, none, none, none, some "true", none⟩
     jsTruthyStr (baseWebhookURL envBad) = false ∧ enableWebHook envBad = true →
      serverStartup envBad =
        [.logError "BASE_WEBHOOK_URL environment variable is not set. Exiting...",
         .exitProcess 1] ∧
      ∀ p, StartupAction.listen p ∉ serverStartup envBad) ∧
    (let envGood : Env := ⟨some "8080", none, some "http://h/hook", none, none, none⟩
     ¬(jsTruthyStr (baseWebhookURL envGood) = false ∧ enableWebHook envGood = true) →
      (serverStartup envGood).head? = some (.listen (servicePort envGood)) ∧
      ∀ c, StartupAction.exitProcess c ∉ serverStartup envGood) :=
  ⟨(startup_exits_iff_webhook_misconfigured _).1,
   (startup_exits_iff_webhook_misconfigured _).2⟩

/-! ## Channel controller (the unnamed controller source file)

Every handler wraps its body in try/catch around the same sequence: get the
session's client, `getChatById`, respond 404 when the chat is falsy, respond
400 when it is not a channel, then run the requested chat operation.  A
handler is a total function from the outcomes of the awaited calls to an HTTP
response plus the list of driver operations invoked on the chat; a thrown
driver error is an input constructor, never a propagated exception. -/

/-- The slice of a whatsapp-web.js chat the controller inspects. -/
structure Chat where
  id : String
  isChannel : Bool
deriving Repr, DecidableEq

/-- A thrown JavaScript error: the controller reads only `message`; `stack` is
carried to express what the responses do not depend on. -/
structure JsError where
  message : String
  stack : String
deriving Repr, DecidableEq

/-- The JSON body of a controller response. -/
inductive ResBody where
  | okChannel (channel : Chat)
  | okMessage (message : String)
  | okMessages (messages : String)
  | okResult (result : String)
  | errorBody (success : Bool) (error : String)
deriving Repr, DecidableEq

/-- An HTTP response: status code plus JSON body. -/
structure Response where
  status : Nat
  body : ResBody
deriving Repr, DecidableEq

/-- utils.js: `const sendErrorResponse = (res, status, message) =>
res.status(status).json({ success: false, error: message })`. -/
def sendErrorResponse (status : Nat) (message : String) : Response :=
  { status := status, body := .errorBody false message }

/-- Outcome of `client.getChatById(chatId)` (or of anything earlier in the
try block): a value — possibly null/undefined, hence `Option` — or a thrown
error caught by the handler's catch. -/
inductive LookupOutcome where
  | value (chat : Option Chat)
  | throws (e : JsError)

/-- Outcome of the awaited chat operation: a result or a thrown error. -/
inductive OpOutcome where
  | ok (result : String)
  | throws (e : JsError)

/-- A driver operation invoked on the looked-up chat. -/
inductive ChatOp where
  | sendMessage (contentType : String)
  | fetchMessages
  | sendSeen
  | mute
  | unmute
  | setSubject (newSubject : String)
  | acceptChannelAdminInvite
  | sendChannelAdminInvite (userId : String)
  | demoteChannelAdmin (userId : String)
  | transferChannelOwnership (newOwnerId : String)
  | revokeChannelAdminInvite (userId : String)
  | getSubscribers
  | deleteChannel
  | setReactionSetting (reactionCode : Int)
  | setDescription (newDescription : String)
  | setProfilePicture
deriving Repr, DecidableEq

/-- What one handler invocation does: the response sent, and the driver
operations invoked on the chat. -/
structure HandlerStep where
  response : Response
  chatOps : List ChatOp
deriving Repr, DecidableEq

/-- The guard block repeated verbatim at the top of every handler:
`if (!chat) { sendErrorResponse(res, 404, 'Channel not Found'); return }` then
`if (!chat.isChannel) { sendErrorResponse(res, 400, 'The chat is not a channel'); return }`;
a throw anywhere lands in the catch, which sends 500 with the error message. -/
def channelGuard (lookup : LookupOutcome) (act : Chat → HandlerStep) : HandlerStep :=
  match lookup with
  | .throws e => { response := sendErrorResponse 500 e.message, chatOps := [] }
  | .value none => { response := sendErrorResponse 404 "Channel not Found", chatOps := [] }
  | .value (some chat) =>
    if !chat.isChannel then
      { response := sendErrorResponse 400 "The chat is not a channel", chatOps := [] }
    else act chat

/-- Run one awaited chat operation under the handler's catch: success responds
200 with the given body, a throw responds 500 with the error message. -/
def runChatOp (o : ChatOp) (mkBody : String → ResBody) (op : OpOutcome) : HandlerStep :=
  match op with
  | .ok r => { response := { status := 200, body := mkBody r }, chatOps := [o] }
  | .throws e => { response := sendErrorResponse 500 e.message, chatOps := [o] }

/-- Controller getClassInfo: after the guard, respond
`{ success: true, channel: chat }`. -/
def getClassInfo (lookup : LookupOutcome) : HandlerStep :=
  channelGuard lookup (fun chat =>
    { response := { status := 200, body := .okChannel chat }, chatOps := [] })

/-- Controller sendMessage: after the guard, switch on contentType
(string, MessageMediaFromURL, MessageMedia, otherwise 400 invalid
contentType); MessageMedia.fromUrl may itself throw before the chat is
touched. -/
def sendMessage (lookup : LookupOutcome) (contentType : String) (fromUrl : Option JsError)
    (op : OpOutcome) : HandlerStep :=
  channelGuard lookup (fun _ =>
    if contentType == "string" then runChatOp (.sendMessage "string") .okMessage op
    else if contentType == "MessageMediaFromURL" then
      match fromUrl with
      | some e => { response := sendErrorResponse 500 e.message, chatOps := [] }
      | none => runChatOp (.sendMessage "MessageMediaFromURL") .okMessage op
    else if contentType == "MessageMedia" then runChatOp (.sendMessage "MessageMedia") .okMessage op
    else { response := sendErrorResponse 400 "invalid contentType", chatOps := [] })

/-- Controller fetchMessages: after the guard, fetch and respond
`{ success: true, messages }`. -/
def fetchMessages (lookup : LookupOutcome) (op : OpOutcome) : HandlerStep :=
  channelGuard lookup (fun _ => runChatOp .fetchMessages .okMessages op)

/-- Controller sendSeen. -/
def sendSeen (lookup : LookupOutcome) (op : OpOutcome) : HandlerStep :=
  channelGuard lookup (fun _ => runChatOp .sendSeen .okResult op)

/-- Controller mute. -/
def mute (lookup : LookupOutcome) (op : OpOutcome) : HandlerStep :=
  channelGuard lookup (fun _ => runChatOp .mute .okResult op)

/-- Controller unmute. -/
def unmute (lookup : LookupOutcome) (op : OpOutcome) : HandlerStep :=
  channelGuard lookup (fun _ => runChatOp .unmute .okResult op)

/-- Controller setSubject. -/
def setSubject (lookup : LookupOutcome) (newSubject : String) (op : OpOutcome) : HandlerStep :=
  channelGuard lookup (fun _ => runChatOp (.setSubject newSubject) .okResult op)

/-- Controller acceptChannelAdminInvite. -/
def acceptChannelAdminInvite (lookup : LookupOutcome) (op : OpOutcome) : HandlerStep :=
  channelGuard lookup (fun _ => runChatOp .acceptChannelAdminInvite .okResult op)

/-- Controller sendChannelAdminInvite. -/
def sendChannelAdminInvite (lookup : LookupOutcome) (userId : String) (op : OpOutcome) :
    HandlerStep :=
  channelGuard lookup (fun _ => runChatOp (.sendChannelAdminInvite userId) .okResult op)

/-- Controller demoteChannelAdmin. -/
def demoteChannelAdmin (lookup : LookupOutcome) (userId : String) (op : OpOutcome) :
    HandlerStep :=
  channelGuard lookup (fun _ => runChatOp (.demoteChannelAdmin userId) .okResult op)

/-- Controller transferChannelOwnership. -/
def transferChannelOwnership (lookup : LookupOutcome) (newOwnerId : String) (op : OpOutcome) :
    HandlerStep :=
  channelGuard lookup (fun _ => runChatOp (.transferChannelOwnership newOwnerId) .okResult op)

/-- Controller revokeChannelAdminInvite. -/
def revokeChannelAdminInvite (lookup : LookupOutcome) (userId : String) (op : OpOutcome) :
    HandlerStep :=
  channelGuard lookup (fun _ => runChatOp (.revokeChannelAdminInvite userId) .okResult op)

/-- Controller getSubscribers. -/
def getSubscribers (lookup : LookupOutcome) (op : OpOutcome) : HandlerStep :=
  channelGuard lookup (fun _ => runChatOp .getSubscribers .okResult op)

/-- Controller deleteChannel. -/
def deleteChannel (lookup : LookupOutcome) (op : OpOutcome) : HandlerStep :=
  channelGuard lookup (fun _ => runChatOp .deleteChannel .okResult op)

/-- Controller setReactionSetting. -/
def setReactionSetting (lookup : LookupOutcome) (reactionCode : Int) (op : OpOutcome) :
    HandlerStep :=
  channelGuard lookup (fun _ => runChatOp (.setReactionSetting reactionCode) .okResult op)

/-- Controller setDescription. -/
def setDescription (lookup : LookupOutcome) (newDescription : String) (op : OpOutcome) :
    HandlerStep :=
  channelGuard lookup (fun _ => runChatOp (.setDescription newDescription) .okResult op)

/-- Controller setProfilePicture: MessageMedia.fromUrl may throw before the
chat is touched. -/
def setProfilePicture (lookup : LookupOutcome) (fromUrl : Option JsError) (op : OpOutcome) :
    HandlerStep :=
  channelGuard lookup (fun _ =>
    match fromUrl with
    | some e => { response := sendErrorResponse 500 e.message, chatOps := [] }
    | none => runChatOp .setProfilePicture .okResult op)

/-- The handler responded 404 Channel not Found and invoked no chat operation. -/
def guardedNotFound (s : HandlerStep) : Prop :=
  s.response = sendErrorResponse 404 "Channel not Found" ∧ s.chatOps = []

/-- The handler responded 400 The chat is not a channel and invoked no chat
operation. -/
def guardedNotChannel (s : HandlerStep) : Prop :=
  s.response = sendErrorResponse 400 "The chat is not a channel" ∧ s.chatOps = []

/-- The C8 property, for one choice of looked-up chat and of the remaining
handler arguments: every channel-controller handler, given a falsy chat
lookup, responds 404 Channel not Found with no chat operation invoked, and
given a non-channel chat responds 400 The chat is not a channel with no chat
operation invoked. -/
def handlersValidateAt (chat : Chat) (contentType userId newOwnerId newSubject
    newDescription : String) (reactionCode : Int) (fromUrl : Option JsError)
    (op : OpOutcome) : Prop :=
  (guardedNotFound (getClassInfo (.value none)) ∧
    guardedNotChannel (getClassInfo (.value (some chat)))) ∧
  (guardedNotFound (sendMessage (.value none) contentType fromUrl op) ∧
    guardedNotChannel (sendMessage (.value (some chat)) contentType fromUrl op)) ∧
  (guardedNotFound (fetchMessages (.value none) op) ∧
    guardedNotChannel (fetchMessages (.value (some chat)) op)) ∧
  (guardedNotFound (sendSeen (.value none) op) ∧
    guardedNotChannel (sendSeen (.value (some chat)) op)) ∧
  (guardedNotFound (mute (.value none) op) ∧
    guardedNotChannel (mute (.value (some chat)) op)) ∧
  (guardedNotFound (unmute (.value none) op) ∧
    guardedNotChannel (unmute (.value (some chat)) op)) ∧
  (guardedNotFound (setSubject (.value none) newSubject op) ∧
    guardedNotChannel (setSubject (.value (some chat)) newSubject op)) ∧
  (guardedNotFound (acceptChannelAdminInvite (.value none) op) ∧
    guardedNotChannel (acceptChannelAdminInvite (.value (some chat)) op)) ∧
  (guardedNotFound (sendChannelAdminInvite (.value none) userId op) ∧
    guardedNotChannel (sendChannelAdminInvite (.value (some chat)) userId op)) ∧
  (guardedNotFound (demoteChannelAdmin (.value none) userId op) ∧
    guardedNotChannel (demoteChannelAdmin (.value (some chat)) userId op)) ∧
  (guardedNotFound (transferChannelOwnership (.value none) newOwnerId op) ∧
    guardedNotChannel (transferChannelOwnership (.value (some chat)) newOwnerId op)) ∧
  (guardedNotFound (revokeChannelAdminInvite (.value none) userId op) ∧
    guardedNotChannel (revokeChannelAdminInvite (.value (some chat)) userId op)) ∧
  (guardedNotFound (getSubscribers (.value none) op) ∧
    guardedNotChannel (getSubscribers (.value (some chat)) op)) ∧
  (guardedNotFound (deleteChannel (.value none) op) ∧
    guardedNotChannel (deleteChannel (.value (some chat)) op)) ∧
  (guardedNotFound (setReactionSetting (.value none) reactionCode op) ∧
    guardedNotChannel (setReactionSetting (.value (some chat)) reactionCode op)) ∧
  (guardedNotFound (setDescription (.value none) newDescription op) ∧
    guardedNotChannel (setDescription (.value (some chat)) newDescription op)) ∧
  (guardedNotFound (setProfilePicture (.value none) fromUrl op) ∧
    guardedNotChannel (setProfilePicture (.value (some chat)) fromUrl op))

/-- Claim C8: every channel-controller operation validates before acting — a
falsy chat lookup yields 404 Channel not Found, a non-channel chat yields 400
The chat is not a channel, and in both cases no driver operation is invoked on
the chat. -/
theorem channel_handlers_validate (chat : Chat) (h : chat.isChannel = false)
    (contentType userId newOwnerId newSubject newDescription : String)
    (reactionCode : Int) (fromUrl : Option JsError) (op : OpOutcome) :
    handlersValidateAt chat contentType userId newOwnerId newSubject newDescription
      reactionCode fromUrl op := by
  have g404 : ∀ act : Chat → HandlerStep, guardedNotFound (channelGuard (.value none) act) :=
    fun act => ⟨rfl, rfl⟩
  have g400 : ∀ act : Chat → HandlerStep,
      guardedNotChannel (channelGuard (.value (some chat)) act) := by
    intro act
    simp only [channelGuard, h, Bool.not_false, if_pos]
    exact ⟨rfl, rfl⟩
  exact ⟨⟨g404 _, g400 _⟩, ⟨g404 _, g400 _⟩, ⟨g404 _, g400 _⟩, ⟨g404 _, g400 _⟩,
    ⟨g404 _, g400 _⟩, ⟨g404 _, g400 _⟩, ⟨g404 _, g400 _⟩, ⟨g404 _, g400 _⟩,
    ⟨g404 _, g400 _⟩, ⟨g404 _, g400 _⟩, ⟨g404 _, g400 _⟩, ⟨g404 _, g400 _⟩,
    ⟨g404 _, g400 _⟩, ⟨g404 _, g400 _⟩, ⟨g404 _, g400 _⟩, ⟨g404 _, g400 _⟩,
    ⟨g404 _, g400 _⟩⟩

/-- Witness for C8: a concrete non-channel chat and concrete arguments. -/
theorem channel_handlers_validate_witness :
    (Chat.mk "123@c.us" false).isChannel = false ∧
    handlersValidateAt (Chat.mk "123@c.us" false) "string" "u@c.us" "o@c.us" "subj"
      "desc" 1 none (.ok "r") :=
  ⟨rfl, channel_handlers_validate _ rfl "string" "u@c.us" "o@c.us" "subj" "desc" 1 none
    (.ok "r")⟩

/-- Counterexample for C6 as literally stated: the catch-all 500 path copies
the thrown driver error's message — Driver-internal text — verbatim into the
response body, so some Driver-internal detail is leaked. -/
theorem getClassInfo_echoes_driver_message :
    (getClassInfo (.throws
      { message := "Protocol error (Runtime.callFunctionOn): Session closed."
        stack := "at CDPSession.send (puppeteer internals)" })).response =
    { status := 500
      body := .errorBody false "Protocol error (Runtime.callFunctionOn): Session closed." } :=
  rfl

/-- The error discipline of a channel-controller handler, viewed as a function
of the lookup outcome and the chat-operation outcome: (1) every response is a
200 success or the structured error `sendErrorResponse s msg` — the body
`{ success: false, error: msg }` — with s among 400, 404 and 500; (2) a throw
during lookup yields 500 with that error's message; (3) a falsy lookup yields
404 Channel not Found; (4) a non-channel chat yields 400 The chat is not a
channel; (5) whenever the chat operation was invoked and threw, the response
is 500 with that error's message; (6) and (7) responses depend only on thrown
errors' messages, never on their stacks.  The handler being a total Lean
function, a thrown error always maps to a response, never to a crash. -/
def errorDiscipline (h : LookupOutcome → OpOutcome → HandlerStep) : Prop :=
  (∀ lookup op, (h lookup op).response.status = 200 ∨
    ∃ s msg, (h lookup op).response = sendErrorResponse s msg ∧
      (s = 400 ∨ s = 404 ∨ s = 500)) ∧
  (∀ e op, (h (.throws e) op).response = sendErrorResponse 500 e.message) ∧
  (∀ op, (h (.value none) op).response = sendErrorResponse 404 "Channel not Found") ∧
  (∀ chat op, chat.isChannel = false →
    (h (.value (some chat)) op).response =
      sendErrorResponse 400 "The chat is not a channel") ∧
  (∀ lookup e, (h lookup (.throws e)).chatOps ≠ [] →
    (h lookup (.throws e)).response = sendErrorResponse 500 e.message) ∧
  (∀ m st st' op, h (.throws ⟨m, st⟩) op = h (.throws ⟨m, st'⟩) op) ∧
  (∀ lookup m st st', h lookup (.throws ⟨m, st⟩) = h lookup (.throws ⟨m, st'⟩))

/-- Any handler built from the shared guard satisfies the error discipline,
provided its post-guard action responds 200 or a structured 400/404/500 error,
responds 500 with the error's message whenever its chat operation threw, and
reads only the message of a thrown error. -/
theorem errorDiscipline_channelGuard (act : Chat → OpOutcome → HandlerStep)
    (hA : ∀ chat op, (act chat op).response.status = 200 ∨
      ∃ s msg, (act chat op).response = sendErrorResponse s msg ∧
        (s = 400 ∨ s = 404 ∨ s = 500))
    (hE : ∀ chat e, (act chat (.throws e)).chatOps ≠ [] →
      (act chat (.throws e)).response = sendErrorResponse 500 e.message)
    (hF : ∀ chat m st st', act chat (.throws ⟨m, st⟩) = act chat (.throws ⟨m, st'⟩)) :
    errorDiscipline (fun lookup op => channelGuard lookup (fun chat => act chat op)) := by
  refine ⟨?_, ?_, ?_, ?_, ?_, ?_, ?_⟩
  · intro lookup op
    beta_reduce
    cases lookup with
    | throws e => exact Or.inr ⟨500, e.message, rfl, Or.inr (Or.inr rfl)⟩
    | value chat =>
      cases chat with
      | none => exact Or.inr ⟨404, "Channel not Found", rfl, Or.inr (Or.inl rfl)⟩
      | some c =>
        by_cases hc : c.isChannel = true
        · have heq : channelGuard (.value (some c)) (fun chat => act chat op) = act c op := by
            simp [channelGuard, hc]
          rw [heq]
          exact hA c op
        · rw [Bool.not_eq_true] at hc
          refine Or.inr ⟨400, "The chat is not a channel", ?_, Or.inl rfl⟩
          simp [channelGuard, hc]
  · intro e op
    rfl
  · intro op
    rfl
  · intro chat op hc
    simp [channelGuard, hc]
  · intro lookup e
    beta_reduce
    cases lookup with
    | throws e2 =>
      intro hne
      exact absurd rfl hne
    | value chat =>
      cases chat with
      | none =>
        intro hne
        exact absurd rfl hne
      | some c =>
        by_cases hc : c.isChannel = true
        · have heq : channelGuard (.value (some c)) (fun chat => act chat (.throws e)) =
              act c (.throws e) := by
            simp [channelGuard, hc]
          rw [heq]
          exact hE c e
        · rw [Bool.not_eq_true] at hc
          have heq : channelGuard (.value (some c)) (fun chat => act chat (.throws e)) =
              { response := sendErrorResponse 400 "The chat is not a channel",
                chatOps := [] } := by
            simp [channelGuard, hc]
          rw [heq]
          intro hne
          exact absurd rfl hne
  · intro m st st' op
    rfl
  · intro lookup m st st'
    beta_reduce
    cases lookup with
    | throws e => rfl
    | value chat =>
      cases chat with
      | none => rfl
      | some c =>
        by_cases hc : c.isChannel = true
        · have h1 : channelGuard (.value (some c)) (fun chat => act chat (.throws ⟨m, st⟩)) =
              act c (.throws ⟨m, st⟩) := by
            simp [channelGuard, hc]
          have h2 : channelGuard (.value (some c)) (fun chat => act chat (.throws ⟨m, st'⟩)) =
              act c (.throws ⟨m, st'⟩) := by
            simp [channelGuard, hc]
          rw [h1, h2]
          exact hF c m st st'
        · rw [Bool.not_eq_true] at hc
          simp [channelGuard, hc]

/-- runChatOp responds 200 on success and the structured 500 error on a throw. -/
theorem runChatOp_status (o : ChatOp) (mkBody : String → ResBody) (op : OpOutcome) :
    (runChatOp o mkBody op).response.status = 200 ∨
      ∃ s msg, (runChatOp o mkBody op).response = sendErrorResponse s msg ∧
        (s = 400 ∨ s = 404 ∨ s = 500) := by
  cases op with
  | ok r => exact Or.inl rfl
  | throws e => exact Or.inr ⟨500, e.message, rfl, Or.inr (Or.inr rfl)⟩

/-- A thrown chat operation run through runChatOp yields 500 with its message. -/
theorem runChatOp_throws (o : ChatOp) (mkBody : String → ResBody) (e : JsError) :
    (runChatOp o mkBody (.throws e)).response = sendErrorResponse 500 e.message :=
  rfl

/-- Claim C6 (amended): for every request to a channel-controller handler,
every failure is returned as the structured JSON error
`{ success: false, error: message }` with the appropriate status — 404 for an
unknown channel, 400 for invalid input (a non-channel chat, an invalid
contentType), 500 for internal failure, every thrown error yielding a 500
response rather than a crash (the handlers are total functions) — and no
stack trace is leaked: responses depend only on thrown errors' messages,
never on their stacks.  The message placed in a 500 response is the thrown
error's own message and may be Driver-provided text. -/
theorem api_errors_structured (contentType userId newOwnerId newSubject
    newDescription : String) (reactionCode : Int) (fromUrl : Option JsError) :
    errorDiscipline (fun lookup _ => getClassInfo lookup) ∧
    errorDiscipline (fun lookup op => sendMessage lookup contentType fromUrl op) ∧
    errorDiscipline (fun lookup op => fetchMessages lookup op) ∧
    errorDiscipline (fun lookup op => sendSeen lookup op) ∧
    errorDiscipline (fun lookup op => mute lookup op) ∧
    errorDiscipline (fun lookup op => unmute lookup op) ∧
    errorDiscipline (fun lookup op => setSubject lookup newSubject op) ∧
    errorDiscipline (fun lookup op => acceptChannelAdminInvite lookup op) ∧
    errorDiscipline (fun lookup op => sendChannelAdminInvite lookup userId op) ∧
    errorDiscipline (fun lookup op => demoteChannelAdmin lookup userId op) ∧
    errorDiscipline (fun lookup op => transferChannelOwnership lookup newOwnerId op) ∧
    errorDiscipline (fun lookup op => revokeChannelAdminInvite lookup userId op) ∧
    errorDiscipline (fun lookup op => getSubscribers lookup op) ∧
    errorDiscipline (fun lookup op => deleteChannel lookup op) ∧
    errorDiscipline (fun lookup op => setReactionSetting lookup reactionCode op) ∧
    errorDiscipline (fun lookup op => setDescription lookup newDescription op) ∧
    errorDiscipline (fun lookup op => setProfilePicture lookup fromUrl op) ∧
    (∀ chat op, chat.isChannel = true → contentType ≠ "string" →
      contentType ≠ "MessageMediaFromURL" → contentType ≠ "MessageMedia" →
      (sendMessage (.value (some chat)) contentType fromUrl op).response =
        sendErrorResponse 400 "invalid contentType") ∧
    (∀ chat op e, chat.isChannel = true →
      (sendMessage (.value (some chat)) "MessageMediaFromURL" (some e) op).response =
        sendErrorResponse 500 e.message) ∧
    (∀ chat op e, chat.isChannel = true →
      (setProfilePicture (.value (some chat)) (some e) op).response =
        sendErrorResponse 500 e.message) := by
  have hsimple : ∀ (o : ChatOp) (mkBody : String → ResBody),
      errorDiscipline (fun lookup op => channelGuard lookup (fun _ => runChatOp o mkBody op)) :=
    fun o mkBody =>
      errorDiscipline_channelGuard (fun _ op => runChatOp o mkBody op)
        (fun _ op => runChatOp_status o mkBody op)
        (fun _ e _ => runChatOp_throws o mkBody e)
        (fun _ _ _ _ => rfl)
  have hsm : errorDiscipline (fun lookup op => sendMessage lookup contentType fromUrl op) := by
    refine errorDiscipline_channelGuard
      (fun _ op =>
        if contentType == "string" then runChatOp (.sendMessage "string") .okMessage op
        else if contentType == "MessageMediaFromURL" then
          match fromUrl with
          | some e => { response := sendErrorResponse 500 e.message, chatOps := [] }
          | none => runChatOp (.sendMessage "MessageMediaFromURL") .okMessage op
        else if contentType == "MessageMedia" then
          runChatOp (.sendMessage "MessageMedia") .okMessage op
        else { response := sendErrorResponse 400 "invalid contentType", chatOps := [] })
      ?_ ?_ ?_
    · intro _ op
      beta_reduce
      by_cases h1 : (contentType == "string") = true
      · rw [if_pos h1]
        exact runChatOp_status _ _ op
      · rw [if_neg h1]
        by_cases h2 : (contentType == "MessageMediaFromURL") = true
        · rw [if_pos h2]
          cases fromUrl with
          | some e => exact Or.inr ⟨500, e.message, rfl, Or.inr (Or.inr rfl)⟩
          | none => exact runChatOp_status _ _ op
        · rw [if_neg h2]
          by_cases h3 : (contentType == "MessageMedia") = true
          · rw [if_pos h3]
            exact runChatOp_status _ _ op
          · rw [if_neg h3]
            exact Or.inr ⟨400, "invalid contentType", rfl, Or.inl rfl⟩
    · intro _ e
      beta_reduce
      by_cases h1 : (contentType == "string") = true
      · rw [if_pos h1]
        intro _
        exact runChatOp_throws _ _ e
      · rw [if_neg h1]
        by_cases h2 : (contentType == "MessageMediaFromURL") = true
        · rw [if_pos h2]
          cases fromUrl with
          | some e2 =>
            intro hne
            exact absurd rfl hne
          | none =>
            intro _
            exact runChatOp_throws _ _ e
        · rw [if_neg h2]
          by_cases h3 : (contentType == "MessageMedia") = true
          · rw [if_pos h3]
            intro _
            exact runChatOp_throws _ _ e
          · rw [if_neg h3]
            intro hne
            exact absurd rfl hne
    · intro _ m st st'
      rfl
  have hpic : errorDiscipline (fun lookup op => setProfilePicture lookup fromUrl op) := by
    clear hsm hsimple
    refine errorDiscipline_channelGuard
      (fun _ op =>
        match fromUrl with
        | some e => { response := sendErrorResponse 500 e.message, chatOps := [] }
        | none => runChatOp .setProfilePicture .okResult op)
      ?_ ?_ ?_
    · intro _ op
      cases fromUrl with
      | some e => exact Or.inr ⟨500, e.message, rfl, Or.inr (Or.inr rfl)⟩
      | none => exact runChatOp_status _ _ op
    · intro _ e
      cases fromUrl with
      | some e2 =>
        intro hne
        exact absurd rfl hne
      | none =>
        intro _
        exact runChatOp_throws _ _ e
    · intro _ m st st'
      cases fromUrl with
      | some e2 => rfl
      | none => rfl
  have hgci : errorDiscipline (fun lookup _ => getClassInfo lookup) :=
    errorDiscipline_channelGuard
      (fun chat _ => { response := { status := 200, body := .okChannel chat }, chatOps := [] })
      (fun _ _ => Or.inl rfl)
      (fun _ _ hne => absurd rfl hne)
      (fun _ _ _ _ => rfl)
  refine ⟨hgci, hsm, hsimple .fetchMessages .okMessages, hsimple .sendSeen .okResult,
    hsimple .mute .okResult, hsimple .unmute .okResult,
    hsimple (.setSubject newSubject) .okResult,
    hsimple .acceptChannelAdminInvite .okResult,
    hsimple (.sendChannelAdminInvite userId) .okResult,
    hsimple (.demoteChannelAdmin userId) .okResult,
    hsimple (.transferChannelOwnership newOwnerId) .okResult,
    hsimple (.revokeChannelAdminInvite userId) .okResult,
    hsimple .getSubscribers .okResult, hsimple .deleteChannel .okResult,
    hsimple (.setReactionSetting reactionCode) .okResult,
    hsimple (.setDescription newDescription) .okResult, hpic, ?_, ?_, ?_⟩
  · intro chat op hch h1 h2 h3
    simp [sendMessage, channelGuard, hch, beq_iff_eq, h1, h2, h3]
  · intro chat op e hch
    simp [sendMessage, channelGuard, hch]
  · intro chat op e hch
    simp [setProfilePicture, channelGuard, hch]

/-- Witness for C6: the discipline concretely for mute, and a concrete invalid
contentType on a real channel answered with 400 invalid contentType. -/
theorem api_errors_structured_witness :
    errorDiscipline (fun lookup op => mute lookup op) ∧
    ((Chat.mk "123@newsletter" true).isChannel = true ∧
      (sendMessage (.value (some (Chat.mk "123@newsletter" true))) "bogus" none
        (.ok "r")).response = sendErrorResponse 400 "invalid contentType") :=
  ⟨(api_errors_structured "bogus" "u@c.us" "o@c.us" "subj" "desc" 1 none).2.2.2.2.1,
   ⟨rfl,
    (api_errors_structured "bogus" "u@c.us" "o@c.us" "subj" "desc" 1
        none).2.2.2.2.2.2.2.2.2.2.2.2.2.2.2.2.2.1
      (Chat.mk "123@newsletter" true) (.ok "r") rfl (by decide) (by decide) (by decide)⟩⟩

/-! ## Polling for a nested object (src/src/utils.js, waitForNestedObject)

The function polls `rootObj` every `interval` milliseconds: it resolves when
the value at the dotted path is truthy, rejects with
Error('Timeout waiting for nested object') once the elapsed time exceeds
maxWaitTime, and otherwise schedules another poll.  The mutable `rootObj` is
modelled as a function `rootAt` from elapsed milliseconds to its value; poll
times are 0, interval, 2*interval, ....  The recursion carries fuel; the
settlement theorem shows maxWaitTime + 2 polls always suffice when the
interval is positive. -/

/-- JavaScript property access `obj[key]` as used by the reduce: fields of an
object, `undefined` for everything else. -/
def getField : JsValue → String → JsValue
  | .jsObj fields, key =>
    match fields.find? (fun p => p.1 == key) with
    | some p => p.2
    | none => .jsUndefined
  | _, _ => .jsUndefined

/-- utils.js: `nestedPath.split('.').reduce((obj, key) => obj ? obj[key] :
undefined, rootObj)`. -/
def nestedLookup (rootObj : JsValue) (nestedPath : String) : JsValue :=
  (nestedPath.splitOn ".").foldl
    (fun obj key => if truthy obj then getField obj key else .jsUndefined) rootObj

/-- How the promise settles: fulfilled, or rejected with an error message,
each at the elapsed time of the deciding poll. -/
inductive WaitResult where
  | resolved (t : Nat)
  | rejected (t : Nat) (msg : String)
deriving Repr, DecidableEq

/-- utils.js checkObject: at elapsed time t, resolve if the nested value is
truthy, reject if t exceeds maxWaitTime, otherwise poll again after
`interval`.  `fuel` bounds the recursion depth; `none` means the fuel ran out
before the promise settled. -/
def checkObject (rootAt : Nat → JsValue) (nestedPath : String)
    (maxWaitTime interval : Nat) : Nat → Nat → Option WaitResult
  | 0, _ => none
  | fuel + 1, t =>
    if truthy (nestedLookup (rootAt t) nestedPath) then some (.resolved t)
    else if maxWaitTime < t then some (.rejected t "Timeout waiting for nested object")
    else checkObject rootAt nestedPath maxWaitTime interval fuel (t + interval)

/-- utils.js waitForNestedObject: start checkObject at elapsed time 0 (with
enough fuel for every possible run, as proved below). -/
def waitForNestedObject (rootAt : Nat → JsValue) (nestedPath : String)
    (maxWaitTime : Nat := 10000) (interval : Nat := 100) : Option WaitResult :=
  checkObject rootAt nestedPath maxWaitTime interval (maxWaitTime + 2) 0

/-- With a positive interval, fuel one more than the remaining wait suffices:
the poll loop always settles. -/
theorem checkObject_isSome (rootAt : Nat → JsValue) (nestedPath : String)
    (maxWaitTime interval : Nat) :
    ∀ fuel t, maxWaitTime < t + fuel * interval →
      (checkObject rootAt nestedPath maxWaitTime interval (fuel + 1) t).isSome := by
  intro fuel
  induction fuel with
  | zero =>
    intro t ht
    simp only [Nat.zero_mul, Nat.add_zero] at ht
    by_cases h1 : truthy (nestedLookup (rootAt t) nestedPath) = true
    · simp [checkObject, h1]
    · simp [checkObject, h1, ht]
  | succ n ih =>
    intro t ht
    by_cases h1 : truthy (nestedLookup (rootAt t) nestedPath) = true
    · simp [checkObject, h1]
    · by_cases h2 : maxWaitTime < t
      · simp [checkObject, h1, h2]
      · have e : t + (n + 1) * interval = t + interval + n * interval := by ring
        rw [e] at ht
        have h3 := ih (t + interval) ht
        simpa [checkObject, h1, h2] using h3

/-- Characterization of a settled poll loop started at time t: either it
resolved at the first poll whose nested value was truthy, all earlier polls
having been falsy and within the deadline; or it rejected, with the timeout
message, at a poll past the deadline, every poll up to and including it
having been falsy. -/
theorem checkObject_spec (rootAt : Nat → JsValue) (nestedPath : String)
    (maxWaitTime interval : Nat) :
    ∀ fuel t r, checkObject rootAt nestedPath maxWaitTime interval fuel t = some r →
      ((∃ n, r = .resolved (t + n * interval) ∧
          truthy (nestedLookup (rootAt (t + n * interval)) nestedPath) = true ∧
          ∀ m < n, truthy (nestedLookup (rootAt (t + m * interval)) nestedPath) = false ∧
            t + m * interval ≤ maxWaitTime) ∨
       (∃ n, r = .rejected (t + n * interval) "Timeout waiting for nested object" ∧
          maxWaitTime < t + n * interval ∧
          ∀ m ≤ n, truthy (nestedLookup (rootAt (t + m * interval)) nestedPath) = false)) := by
  intro fuel
  induction fuel with
  | zero =>
    intro t r hr
    simp [checkObject] at hr
  | succ k ih =>
    intro t r hr
    by_cases h1 : truthy (nestedLookup (rootAt t) nestedPath) = true
    · simp only [checkObject, h1, if_pos, Option.some.injEq] at hr
      left
      refine ⟨0, ?_, ?_, ?_⟩
      · simp [← hr]
      · simpa using h1
      · intro m hm
        exact absurd hm (Nat.not_lt_zero m)
    · rw [Bool.not_eq_true] at h1
      by_cases h2 : maxWaitTime < t
      · simp only [checkObject, h1, Bool.false_eq_true, if_false, h2, if_pos,
          Option.some.injEq] at hr
        right
        refine ⟨0, ?_, ?_, ?_⟩
        · simp [← hr]
        · simpa using h2
        · intro m hm
          interval_cases m
          simpa using h1
      · simp only [checkObject, h1, Bool.false_eq_true, if_false, h2] at hr
        rcases ih (t + interval) r hr with ⟨n, hres, htr, hall⟩ | ⟨n, hrej, hgt, hall⟩
        · left
          have e : t + interval + n * interval = t + (n + 1) * interval := by ring
          rw [e] at hres htr
          refine ⟨n + 1, hres, htr, ?_⟩
          intro m hm
          cases m with
          | zero =>
            refine ⟨by simpa using h1, ?_⟩
            simpa using Nat.le_of_not_lt h2
          | succ m' =>
            have hm' : m' < n := Nat.lt_of_succ_lt_succ hm
            have em : t + interval + m' * interval = t + (m' + 1) * interval := by ring
            have := hall m' hm'
            rw [em] at this
            exact this
        · right
          have e : t + interval + n * interval = t + (n + 1) * interval := by ring
          rw [e] at hrej hgt
          refine ⟨n + 1, hrej, hgt, ?_⟩
          intro m hm
          cases m with
          | zero => simpa using h1
          | succ m' =>
            have hm' : m' ≤ n := Nat.le_of_succ_le_succ hm
            have em : t + interval + m' * interval = t + (m' + 1) * interval := by ring
            have := hall m' hm'
            rw [em] at this
            exact this

/-- Claim C7: for every rootObj history, dotted path, maxWaitTime and positive
polling interval, waitForNestedObject settles: it resolves at the first poll
that finds the nested value truthy (all earlier polls having found it falsy),
and otherwise rejects with Error('Timeout waiting for nested object') at the
first poll past maxWaitTime; it never remains pending. -/
theorem waitForNestedObject_settles (rootAt : Nat → JsValue) (nestedPath : String)
    (maxWaitTime interval : Nat) (hi : 0 < interval) :
    ∃ r, waitForNestedObject rootAt nestedPath maxWaitTime interval = some r ∧
      ((∃ n, r = .resolved (n * interval) ∧
          truthy (nestedLookup (rootAt (n * interval)) nestedPath) = true ∧
          ∀ m < n, truthy (nestedLookup (rootAt (m * interval)) nestedPath) = false ∧
            m * interval ≤ maxWaitTime) ∨
       (∃ n, r = .rejected (n * interval) "Timeout waiting for nested object" ∧
          maxWaitTime < n * interval ∧
          ∀ m ≤ n, truthy (nestedLookup (rootAt (m * interval)) nestedPath) = false)) := by
  have hb : maxWaitTime < 0 + (maxWaitTime + 1) * interval := by
    have h1 : maxWaitTime + 1 ≤ (maxWaitTime + 1) * interval :=
      Nat.le_mul_of_pos_right _ hi
    omega
  have hs := checkObject_isSome rootAt nestedPath maxWaitTime interval
    (maxWaitTime + 1) 0 hb
  obtain ⟨r, hr⟩ := Option.isSome_iff_exists.mp hs
  refine ⟨r, hr, ?_⟩
  have hspec := checkObject_spec rootAt nestedPath maxWaitTime interval
    (maxWaitTime + 2) 0 r hr
  simpa using hspec

/-- Witness for C7: a rootObj whose nested property is present from the start
resolves; the interval hypothesis holds at the default 100 ms. -/
theorem waitForNestedObject_settles_witness :
    (0 < 100 ∧
     ∃ r, waitForNestedObject (fun _ => .jsObj [("pupPage", .jsObj [])]) "pupPage"
        10000 100 = some r ∧
      ((∃ n, r = .resolved (n * 100) ∧
          truthy (nestedLookup ((fun (_ : Nat) => JsValue.jsObj [("pupPage", .jsObj [])])
            (n * 100)) "pupPage") = true ∧
          ∀ m < n, truthy (nestedLookup ((fun (_ : Nat) => JsValue.jsObj
            [("pupPage", .jsObj [])]) (m * 100)) "pupPage") = false ∧
            m * 100 ≤ 10000) ∨
       (∃ n, r = .rejected (n * 100) "Timeout waiting for nested object" ∧
          10000 < n * 100 ∧
          ∀ m ≤ n, truthy (nestedLookup ((fun (_ : Nat) => JsValue.jsObj
            [("pupPage", .jsObj [])]) (m * 100)) "pupPage") = false))) :=
  ⟨by decide,
   waitForNestedObject_settles (fun _ => .jsObj [("pupPage", .jsObj [])]) "pupPage"
     10000 100 (by decide)⟩

/-! ## Chunked base64 decoding (src/src/utils.js, decodeBase64)

The generator slices the base64 string into chunks of 1024 characters and
yields `Buffer.from(chunk, 'base64')` for each.  Node's base64 decoder is
forgiving: characters outside the base64 alphabet (including `=`) are
skipped, and a trailing group of 2 or 3 alphabet characters decodes to 1 or 2
bytes.  Bytes are modelled as `Nat` below 256. -/

/-- The base64 alphabet value of a character; `none` for every character the
decoder skips (including `=` and whitespace). -/
def b64Val (c : Char) : Option Nat :=
  if 'A' ≤ c ∧ c ≤ 'Z' then some (c.toNat - 65)
  else if 'a' ≤ c ∧ c ≤ 'z' then some (c.toNat - 97 + 26)
  else if '0' ≤ c ∧ c ≤ '9' then some (c.toNat - 48 + 52)
  else if c = '+' then some 62
  else if c = '/' then some 63
  else none

/-- Decode a list of 6-bit values to bytes: each full group of four values
yields three bytes; a trailing group of three or two values yields two bytes
or one; a single trailing value yields nothing. -/
def decodeVals : List Nat → List Nat
  | v0 :: v1 :: v2 :: v3 :: rest =>
    (v0 * 4 + v1 / 16) :: ((v1 % 16) * 16 + v2 / 4) :: ((v2 % 4) * 64 + v3) ::
      decodeVals rest
  | [v0, v1, v2] => [v0 * 4 + v1 / 16, (v1 % 16) * 16 + v2 / 4]
  | [v0, v1] => [v0 * 4 + v1 / 16]
  | _ => []

/-- Node's `Buffer.from(chars, 'base64')`: skip non-alphabet characters, then
decode the 6-bit values. -/
def bufferFromBase64 (chars : List Char) : List Nat :=
  decodeVals (chars.filterMap b64Val)

/-- The chunking loop of decodeBase64:
`for (let i = 0; i < base64String.length; i += 1024)` slice out
`base64String.slice(i, i + 1024)`. -/
def base64Chunks : List Char → List (List Char)
  | [] => []
  | c :: rest => (c :: rest).take 1024 :: base64Chunks ((c :: rest).drop 1024)
termination_by l => l.length
decreasing_by simp; omega

/-- utils.js decodeBase64: the sequence of Buffers the generator yields, one
per 1024-character chunk. -/
def decodeBase64 (base64String : String) : List (List Nat) :=
  (base64Chunks base64String.data).map bufferFromBase64

/-- Unfolding of the chunking loop on a non-empty string. -/
theorem base64Chunks_eq (l : List Char) (h : l ≠ []) :
    base64Chunks l = l.take 1024 :: base64Chunks (l.drop 1024) := by
  cases l with
  | nil => exact absurd rfl h
  | cons c rest => rw [base64Chunks]

/-- A list of characters that all carry base64 values contributes exactly its
length in 6-bit values. -/
theorem filterMap_b64Val_length (l : List Char)
    (h : ∀ c ∈ l, (b64Val c).isSome = true) :
    (l.filterMap b64Val).length = l.length := by
  induction l with
  | nil => rfl
  | cons c rest ih =>
    have hc := h c (List.mem_cons_self c rest)
    obtain ⟨v, hv⟩ := Option.isSome_iff_exists.mp hc
    simp [List.filterMap_cons, hv, ih (fun d hd => h d (List.mem_cons_of_mem c hd))]

/-- decodeVals distributes over an append whose left part is a whole number
of four-value groups. -/
theorem decodeVals_append :
    ∀ (k : Nat) (vs ws : List Nat), vs.length = 4 * k →
      decodeVals (vs ++ ws) = decodeVals vs ++ decodeVals ws := by
  intro k
  induction k with
  | zero =>
    intro vs ws h
    have hv : vs = [] := List.eq_nil_of_length_eq_zero (by omega)
    subst hv
    simp [decodeVals]
  | succ k ih =>
    intro vs ws h
    cases vs with
    | nil => simp at h
    | cons v0 vs1 =>
      cases vs1 with
      | nil => simp at h; omega
      | cons v1 vs2 =>
        cases vs2 with
        | nil => simp at h; omega
        | cons v2 vs3 =>
          cases vs3 with
          | nil => simp at h; omega
          | cons v3 vs4 =>
            have hlen : vs4.length = 4 * k := by
              simp at h
              omega
            simp only [List.cons_append, decodeVals, List.append_eq, ih vs4 ws hlen]

/-- Splitting a body-then-padding character list at a multiple of four and
decoding the halves agrees with decoding the whole. -/
theorem bufferFromBase64_split (body pad : List Char)
    (hb : ∀ c ∈ body, (b64Val c).isSome = true)
    (hp : ∀ c ∈ pad, b64Val c = none)
    (n : Nat) (hn : n % 4 = 0) :
    bufferFromBase64 ((body ++ pad).take n) ++ bufferFromBase64 ((body ++ pad).drop n) =
      bufferFromBase64 (body ++ pad) := by
  have hsplit : bufferFromBase64 (body ++ pad) =
      decodeVals (((body ++ pad).take n).filterMap b64Val ++
        ((body ++ pad).drop n).filterMap b64Val) := by
    unfold bufferFromBase64
    rw [← List.filterMap_append, List.take_append_drop]
  by_cases hcase : n ≤ body.length
  · have htake : (body ++ pad).take n = body.take n := by
      rw [List.take_append_eq_append_take]
      simp [Nat.sub_eq_zero_of_le hcase]
    have hlen : (((body ++ pad).take n).filterMap b64Val).length = 4 * (n / 4) := by
      rw [htake]
      rw [filterMap_b64Val_length _ (fun c hc => hb c (List.mem_of_mem_take hc))]
      rw [List.length_take]
      omega
    rw [hsplit, decodeVals_append (n / 4) _ _ hlen]
    rfl
  · have hbdrop : body.drop n = [] :=
      List.drop_eq_nil_of_le (Nat.le_of_lt (Nat.lt_of_not_le hcase))
    have hdrop : (body ++ pad).drop n = pad.drop (n - body.length) := by
      rw [List.drop_append_eq_append_drop, hbdrop, List.nil_append]
    have hfm : ((body ++ pad).drop n).filterMap b64Val = [] := by
      rw [hdrop]
      exact List.filterMap_eq_nil_iff.mpr (fun c hc => hp c (List.mem_of_mem_drop hc))
    have hbuf_drop : bufferFromBase64 ((body ++ pad).drop n) = [] := by
      unfold bufferFromBase64
      rw [hfm]
      rfl
    have hbuf_take : bufferFromBase64 ((body ++ pad).take n) =
        bufferFromBase64 (body ++ pad) := by
      unfold bufferFromBase64
      conv_rhs => rw [← List.take_append_drop n (body ++ pad)]
      rw [List.filterMap_append, hfm, List.append_nil]
    rw [hbuf_drop, hbuf_take, List.append_nil]

/-- Concatenating the per-chunk decodings of a body-then-padding list equals
decoding the whole list, because the chunk size 1024 is a multiple of four. -/
theorem base64Chunks_flatten :
    ∀ (N : Nat) (body pad : List Char), (body ++ pad).length = N →
      (∀ c ∈ body, (b64Val c).isSome = true) →
      (∀ c ∈ pad, b64Val c = none) →
      ((base64Chunks (body ++ pad)).map bufferFromBase64).flatten =
        bufferFromBase64 (body ++ pad) := by
  intro N
  induction N using Nat.strong_induction_on with
  | _ N ih =>
    intro body pad hN hb hp
    by_cases hnil : body ++ pad = []
    · rw [hnil]
      simp [base64Chunks, bufferFromBase64, decodeVals]
    · rw [base64Chunks_eq _ hnil]
      simp only [List.map_cons, List.flatten_cons]
      have hdrop : (body ++ pad).drop 1024 =
          body.drop 1024 ++ pad.drop (1024 - body.length) :=
        List.drop_append_eq_append_drop
      have hb' : ∀ c ∈ body.drop 1024, (b64Val c).isSome = true :=
        fun c hc => hb c (List.mem_of_mem_drop hc)
      have hp' : ∀ c ∈ pad.drop (1024 - body.length), b64Val c = none :=
        fun c hc => hp c (List.mem_of_mem_drop hc)
      have hlt : (body.drop 1024 ++ pad.drop (1024 - body.length)).length < N := by
        rw [← hdrop, ← hN]
        have hpos : 0 < (body ++ pad).length := List.length_pos.mpr hnil
        rw [List.length_drop]
        omega
      have ihd := ih _ hlt (body.drop 1024) (pad.drop (1024 - body.length)) rfl hb' hp'
      rw [hdrop, ihd, ← hdrop]
      exact bufferFromBase64_split body pad hb hp 1024 (by decide)

/-- Claim C9: chunked base64 decoding is a homomorphism with respect to
concatenation — for every base64 string (alphabet characters followed by
optional `=` padding), the concatenation of the Buffers yielded by
decodeBase64 equals decoding the string in one piece, because the chunk size
1024 is a multiple of the base64 quantum of four characters. -/
theorem decodeBase64_flatten_eq (s : String) (body pad : List Char)
    (hs : s.data = body ++ pad)
    (hb : ∀ c ∈ body, (b64Val c).isSome = true)
    (hp : ∀ c ∈ pad, c = '=') :
    (decodeBase64 s).flatten = bufferFromBase64 s.data := by
  have hp' : ∀ c ∈ pad, b64Val c = none := by
    intro c hc
    rw [hp c hc]
    decide
  unfold decodeBase64
  rw [hs]
  exact base64Chunks_flatten _ body pad rfl hb hp'

/-- Witness for C9: the padded base64 string SGVsbG8= (the bytes of Hello),
decomposed into its alphabet body and its padding. -/
theorem decodeBase64_flatten_eq_witness :
    ("SGVsbG8=".data = "SGVsbG8".data ++ ['=']) ∧
    (decodeBase64 "SGVsbG8=").flatten = bufferFromBase64 "SGVsbG8=".data :=
  ⟨by decide,
   decodeBase64_flatten_eq "SGVsbG8=" "SGVsbG8".data ['='] (by decide)
     (by decide) (by decide)⟩

end WwebjsApi
